import Mathlib

/-!
Shallow embedding of `src/bot.py` (MLH-URL-script): a Twitch-chat link
aggregator that filters chat messages, fetches the current stream title via
an OAuth client-credentials token cache, and appends one spreadsheet row per
detected URL.

External collaborators (the HTTP transport, the URL-extraction library, the
Google Sheets client) are modelled as explicit parameters: each network call
site takes a value describing the response the collaborator would produce,
and each function returns, besides its Python return value, the observable
effects (network-call counts, attempted spreadsheet rows, log lines) and
whether it raised an exception.
-/

namespace Bot

/-- Result of a Python call: a normal return or an uncaught exception,
tagged with the exception class name. -/
inductive PyResult (α : Type) where
  | ret (a : α)
  | exc (name : String)
deriving DecidableEq, Repr

/-- `TwitchConfig` dataclass: credentials and channel settings. -/
structure TwitchConfig where
  client_id : String
  client_secret : String
  broadcaster_id : String
  channel_name : String
deriving DecidableEq, Repr

/-- Mutable state of `TwitchAPI`: `self._access_token` (Python `None` or a
string) and `self._token_expiry` (a float epoch time, modelled as a
rational; initialised to `0`). -/
structure TwitchAPI where
  access_token : Option String
  token_expiry : ℚ
deriving DecidableEq, Repr

/-- Python truthiness test `not self._access_token`: true when the token is
`None` or the empty string. -/
def tokenFalsy : Option String → Bool
  | none => true
  | some s => s == ""

/-- Response of one POST to the token endpoint: either a JSON body with
`access_token` and `expires_in` (integer seconds), or a
`requests.RequestException` (transport error or non-2xx via
`raise_for_status`). -/
inductive TokenResult where
  | ok (access_token : String) (expires_in : Int)
  | err
deriving DecidableEq, Repr

/-- `TwitchAPI._get_new_token`: performs one POST to the token endpoint.
On success stores the token and `time.time() + expires_in - 300`; on
`requests.RequestException` it logs and re-raises (`Except.error`). -/
def get_new_token (api : TwitchAPI) (now : ℚ) (resp : TokenResult) :
    Except Unit TwitchAPI :=
  match resp with
  | .ok tok exp => .ok { api with access_token := some tok,
                                  token_expiry := now + (exp : ℚ) - 300 }
  | .err => .error ()

/-- `TwitchAPI._refresh_token_if_needed`: refreshes iff
`not self._access_token or current_time >= self._token_expiry`.
Returns the resulting state (or the propagated exception) together with the
number of POSTs made to the token endpoint. -/
def refresh_token_if_needed (api : TwitchAPI) (now : ℚ) (resp : TokenResult) :
    Except Unit TwitchAPI × Nat :=
  if tokenFalsy api.access_token || now ≥ api.token_expiry then
    (get_new_token api now resp, 1)
  else
    (.ok api, 0)

/-- Response of the GET to the channel-metadata endpoint:
`requestException` covers transport errors and non-2xx (`raise_for_status`);
`ok dataArr` is a 2xx JSON body, where `dataArr = none` means the body has
no `data` key and otherwise `dataArr` lists the `title` field of each
element of the `data` array. -/
inductive GetResp where
  | requestException
  | ok (dataArr : Option (List String))
deriving DecidableEq, Repr

/-- `TwitchAPI.get_stream_info`: calls `_refresh_token_if_needed` (outside
the `try` block, so a refresh failure propagates), then GETs the channel
metadata inside `try ... except requests.RequestException: return None` and
returns `response.json()['data'][0]['title']`.  A missing `data` key raises
`KeyError` and an empty array raises `IndexError`; neither is caught. -/
def get_stream_info (api : TwitchAPI) (now : ℚ) (tokResp : TokenResult)
    (getResp : GetResp) : PyResult (Option String) :=
  match (refresh_token_if_needed api now tokResp).1 with
  | .error _ => .exc "RequestException"
  | .ok _ =>
    match getResp with
    | .requestException => .ret none
    | .ok none => .exc "KeyError"
    | .ok (some []) => .exc "IndexError"
    | .ok (some (t :: _)) => .ret (some t)

/-- `StreamInfo` dataclass. -/
structure StreamInfo where
  title : String
  timestamp : Int
  links : List String
deriving DecidableEq, Repr

/-- Python slice `s[:-3]`: drop the last three characters (empty result when
the string has at most three characters). -/
def sliceDropLast3 (s : String) : String :=
  ⟨s.toList.take (s.length - 3)⟩

/-- Python `int(s)` on the strings arising here: parses a non-empty string
of decimal digits (with an optional leading minus sign); any other string —
in particular the empty string — raises `ValueError`, modelled as `none`. -/
def pyInt (s : String) : Option Int :=
  let digits (l : List Char) : Option Nat :=
    if l ≠ [] ∧ l.all Char.isDigit then
      some (l.foldl (fun a c => 10 * a + (c.toNat - 48)) 0)
    else none
  match s.toList with
  | '-' :: rest => (digits rest).map (fun n => -(n : Int))
  | l => (digits l).map (fun n => (n : Int))

/-- `int(message['tmi-sent-ts'][:-3])`: millisecond timestamp string
truncated to seconds; `none` models the `ValueError` raised on a malformed
string. -/
def parse_ts (s : String) : Option Int :=
  pyInt (sliceDropLast3 s)

/-- Civil date from days since the Unix epoch (proleptic Gregorian), as
computed by `datetime.utcfromtimestamp`: returns (year, month, day). -/
def civil_from_days (z0 : Int) : Int × Nat × Nat :=
  let z := z0 + 719468
  let era := Int.fdiv z 146097
  let doe := (z - era * 146097).toNat
  let yoe := (doe - doe / 1460 + doe / 36524 - doe / 146096) / 365
  let doy := doe - (365 * yoe + yoe / 4 - yoe / 100)
  let mp := (5 * doy + 2) / 153
  let d := doy - (153 * mp + 2) / 5 + 1
  let m := if mp < 10 then mp + 3 else mp - 9
  (if m ≤ 2 then (yoe : Int) + era * 400 + 1 else (yoe : Int) + era * 400, m, d)

/-- Zero-pad a natural number to two digits (`%m`, `%d`, `%H`, `%M`, `%S`). -/
def pad2 (n : Nat) : String :=
  if n < 10 then "0" ++ toString n else toString n

/-- `%Y`: the year, zero-padded to four digits. -/
def pad4 (y : Int) : String :=
  let s := toString y.toNat
  if s.length < 4 then
    String.mk (List.replicate (4 - s.length) '0') ++ s
  else s

/-- `datetime.utcfromtimestamp(ts).strftime('%Y-%m-%d')`. -/
def strftime_date (ts : Int) : String :=
  let (y, m, d) := civil_from_days (Int.fdiv ts 86400)
  pad4 y ++ "-" ++ pad2 m ++ "-" ++ pad2 d

/-- `datetime.utcfromtimestamp(ts).strftime('%H:%M:%S')`. -/
def strftime_time (ts : Int) : String :=
  let sod := (Int.fmod ts 86400).toNat
  pad2 (sod / 3600) ++ ":" ++ pad2 (sod % 3600 / 60) ++ ":" ++ pad2 (sod % 60)

/-- The single spreadsheet row built by `SheetsAPI.write_link`:
`[stream_info.title, date, time_str, link]`, in that order. -/
def buildRow (info : StreamInfo) (link : String) : List String :=
  [info.title, strftime_date info.timestamp, strftime_time info.timestamp, link]

/-- Outcome of one `write_link` attempt: the append succeeded, the
`.execute()` call raised `googleapiclient.errors.HttpError`, or some other
exception was raised inside the `try` block (a transport-level failure not
wrapped in `HttpError`, or a formatting error). -/
inductive AppendOutcome where
  | success
  | httpError
  | otherExc
deriving DecidableEq, Repr

/-- `SheetsAPI.write_link`: formats the row and appends it inside
`try ... except HttpError: return False`.  Returns the Python result and
the list of rows whose append was attempted (empty when an exception other
than `HttpError` fired, since it may precede the remote call). -/
def write_link (info : StreamInfo) (link : String) (outcome : AppendOutcome) :
    PyResult Bool × List (List String) :=
  match outcome with
  | .success => (.ret true, [buildRow info link])
  | .httpError => (.ret false, [buildRow info link])
  | .otherExc => (.exc "Exception", [])

/-- The URL-extraction collaborator (`urlextract.URLExtract`): the two
methods the code calls, left abstract. -/
structure URLExtract where
  has_urls : String → Bool
  find_urls : String → List String

/-- A parsed chat event (`message` dict): the four keys the code reads. -/
structure ChatMessage where
  user_type : String
  display_name : String
  message : String
  tmi_sent_ts : String
deriving DecidableEq, Repr

/-- `LinkAggregator._is_authorized_user`:
`message['user-type'] == 'mod' or message['display-name'] == 'MLH'`. -/
def is_authorized_user (m : ChatMessage) : Bool :=
  m.user_type == "mod" || m.display_name == "MLH"

/-- Observable effects of one `process_message` invocation. -/
structure Effects where
  fetches : Nat
  tokenRequests : Nat
  appends : List (List String)
  logs : List String
  outcome : PyResult Unit
deriving DecidableEq, Repr

/-- The `for link in urls` loop of `process_message`: calls `write_link`
per link (the `i`-th call's outcome given by `appendOut i`), logging success
or failure per link; a non-`HttpError` exception aborts the loop. -/
def run_links (info : StreamInfo) (urls : List String)
    (appendOut : Nat → AppendOutcome) (i : Nat) :
    List (List String) × List String × PyResult Unit :=
  match urls with
  | [] => ([], [], .ret ())
  | link :: rest =>
    match write_link info link (appendOut i) with
    | (.ret true, rows) =>
      let r := run_links info rest appendOut (i + 1)
      (rows ++ r.1, ("Successfully wrote " ++ link ++ " to database") :: r.2.1, r.2.2)
    | (.ret false, rows) =>
      let r := run_links info rest appendOut (i + 1)
      (rows ++ r.1, ("Failed to write " ++ link ++ " to database") :: r.2.1, r.2.2)
    | (.exc e, rows) => (rows, [], .exc e)

/-- An invocation that returned having performed no fetch, no token
request, no append and no log. -/
def noEffects : Effects :=
  { fetches := 0, tokenRequests := 0, appends := [], logs := [], outcome := .ret () }

/-- `LinkAggregator.process_message`: authorization filter, URL check,
title fetch (`if not stream_title` also treats the empty title as a
failure), timestamp parse, then one `write_link` per extracted URL. -/
def process_message (ex : URLExtract) (api : TwitchAPI) (now : ℚ)
    (tokResp : TokenResult) (getResp : GetResp)
    (appendOut : Nat → AppendOutcome) (m : ChatMessage) : Effects :=
  if ¬ is_authorized_user m then noEffects
  else if ¬ ex.has_urls m.message then noEffects
  else
    let tokenReqs := (refresh_token_if_needed api now tokResp).2
    match get_stream_info api now tokResp getResp with
    | .exc e =>
      { fetches := 1, tokenRequests := tokenReqs, appends := [], logs := [],
        outcome := .exc e }
    | .ret none =>
      { fetches := 1, tokenRequests := tokenReqs, appends := [],
        logs := ["Failed to get stream title"], outcome := .ret () }
    | .ret (some title) =>
      if title == "" then
        { fetches := 1, tokenRequests := tokenReqs, appends := [],
          logs := ["Failed to get stream title"], outcome := .ret () }
      else
        match parse_ts m.tmi_sent_ts with
        | none =>
          { fetches := 1, tokenRequests := tokenReqs, appends := [], logs := [],
            outcome := .exc "ValueError" }
        | some ts =>
          let urls := ex.find_urls m.message
          let info : StreamInfo := ⟨title, ts, urls⟩
          let r := run_links info urls appendOut 0
          { fetches := 1, tokenRequests := tokenReqs, appends := r.1,
            logs := r.2.1, outcome := r.2.2 }

/-- A small concrete URL extractor used to instantiate theorems on concrete
inputs: a lookup table for the sample messages used in witnesses (the real
`urlextract` library is an external collaborator, abstract in the model). -/
def sampleExtractor : URLExtract where
  has_urls s :=
    (s == "see http://a.com and http://b.com") || (s == "see http://a.com")
  find_urls s :=
    if s == "see http://a.com and http://b.com" then
      ["http://a.com", "http://b.com"]
    else if s == "see http://a.com" then
      ["http://a.com"]
    else []

/-- Every row the `for link in urls` loop hands to the sheets append is
`buildRow info link` for some link. -/
theorem run_links_rows (info : StreamInfo) (urls : List String)
    (appendOut : Nat → AppendOutcome) (i : Nat) :
    ∀ row ∈ (run_links info urls appendOut i).1, ∃ l, row = buildRow info l := by
  induction urls generalizing i with
  | nil => simp [run_links]
  | cons u rest ih =>
    intro row hrow
    unfold run_links at hrow
    cases h : appendOut i <;> rw [h] at hrow <;> simp [write_link] at hrow
    · rcases hrow with h' | h'
      · exact ⟨u, h'⟩
      · exact ih (i + 1) row h'
    · rcases hrow with h' | h'
      · exact ⟨u, h'⟩
      · exact ih (i + 1) row h'

/-- C1: `_refresh_token_if_needed` performs no token-endpoint request when a
token is held (truthy) and the current time is strictly before the stored
expiry instant; it performs exactly one request when no token is held or the
current time is at or after the stored expiry. -/
theorem refresh_token_network_calls (api : TwitchAPI) (now : ℚ)
    (resp : TokenResult) :
    ((tokenFalsy api.access_token = false ∧ now < api.token_expiry) →
      (refresh_token_if_needed api now resp).2 = 0) ∧
    ((tokenFalsy api.access_token = true ∨ api.token_expiry ≤ now) →
      (refresh_token_if_needed api now resp).2 = 1) := by
  unfold refresh_token_if_needed
  constructor
  · rintro ⟨h1, h2⟩
    simp [h1, h2, not_le.mpr h2]
  · rintro (h | h) <;> simp [h]

/-- C1 witness: with a held token and `now = 100 < 200 = expiry` no request
happens; with no token held exactly one request happens. -/
theorem refresh_token_network_calls_witness :
    (refresh_token_if_needed ⟨some "tok", 200⟩ 100 TokenResult.err).2 = 0 ∧
    (refresh_token_if_needed ⟨none, 0⟩ 100 (TokenResult.ok "t" 3600)).2 = 1 :=
  ⟨(refresh_token_network_calls ⟨some "tok", 200⟩ 100 TokenResult.err).1
      ⟨by decide, by norm_num⟩,
   (refresh_token_network_calls ⟨none, 0⟩ 100 (TokenResult.ok "t" 3600)).2
      (Or.inl (by decide))⟩

/-- C10: `write_link` returns `False` exactly when the append raised
`HttpError`; any other exception inside the `try` block propagates, and a
successful append returns `True`. -/
theorem write_link_false_iff_httpError (info : StreamInfo) (link : String)
    (outcome : AppendOutcome) :
    ((write_link info link outcome).1 = PyResult.ret false ↔
      outcome = AppendOutcome.httpError) ∧
    (outcome = AppendOutcome.otherExc →
      (write_link info link outcome).1 = PyResult.exc "Exception") ∧
    (outcome = AppendOutcome.success →
      (write_link info link outcome).1 = PyResult.ret true) := by
  cases outcome <;> simp [write_link]

/-- C10 witness: concrete instance at each outcome. -/
theorem write_link_false_iff_httpError_witness :
    ((write_link ⟨"T", 0, []⟩ "http://a.com" AppendOutcome.httpError).1 =
      PyResult.ret false) ∧
    ((write_link ⟨"T", 0, []⟩ "http://a.com" AppendOutcome.otherExc).1 =
      PyResult.exc "Exception") ∧
    ((write_link ⟨"T", 0, []⟩ "http://a.com" AppendOutcome.success).1 =
      PyResult.ret true) :=
  ⟨(write_link_false_iff_httpError ⟨"T", 0, []⟩ "http://a.com"
      AppendOutcome.httpError).1.mpr rfl,
   (write_link_false_iff_httpError ⟨"T", 0, []⟩ "http://a.com"
      AppendOutcome.otherExc).2.1 rfl,
   (write_link_false_iff_httpError ⟨"T", 0, []⟩ "http://a.com"
      AppendOutcome.success).2.2 rfl⟩

/-- C2 counterexample: when the token refresh fails, `get_stream_info` does
not return `None` — the exception propagates, because
`_refresh_token_if_needed()` is called outside the `try` block. -/
theorem get_stream_info_refresh_failure_cex :
    get_stream_info ⟨none, 0⟩ 0 TokenResult.err (GetResp.ok (some ["T"])) ≠
      PyResult.ret none ∧
    get_stream_info ⟨none, 0⟩ 0 TokenResult.err (GetResp.ok (some ["T"])) =
      PyResult.exc "RequestException" := by
  constructor
  · decide
  · rfl

/-- C2 amended: a transport error or non-2xx status on the metadata GET
(`requests.RequestException`) returns `None`; a token-refresh failure
propagates the exception, and a 2xx response whose `data` array is missing
or empty raises `KeyError` / `IndexError` rather than returning `None`. -/
theorem get_stream_info_failure_modes (api : TwitchAPI) (now : ℚ)
    (tokResp : TokenResult) (getResp : GetResp) :
    ((refresh_token_if_needed api now tokResp).1 = Except.error () →
      get_stream_info api now tokResp getResp = PyResult.exc "RequestException") ∧
    (∀ api2, (refresh_token_if_needed api now tokResp).1 = Except.ok api2 →
      (get_stream_info api now tokResp GetResp.requestException =
        PyResult.ret none) ∧
      (getResp = GetResp.ok none →
        get_stream_info api now tokResp getResp = PyResult.exc "KeyError") ∧
      (getResp = GetResp.ok (some []) →
        get_stream_info api now tokResp getResp = PyResult.exc "IndexError") ∧
      (∀ t rest, getResp = GetResp.ok (some (t :: rest)) →
        get_stream_info api now tokResp getResp = PyResult.ret (some t))) := by
  constructor
  · intro h
    unfold get_stream_info
    rw [h]
  · intro api2 h
    refine ⟨?_, ?_, ?_, ?_⟩
    · unfold get_stream_info
      rw [h]
    · intro hg
      unfold get_stream_info
      rw [h, hg]
    · intro hg
      unfold get_stream_info
      rw [h, hg]
    · intro t rest hg
      unfold get_stream_info
      rw [h, hg]

/-- C2 amended witness: concrete instances of each branch. -/
theorem get_stream_info_failure_modes_witness :
    get_stream_info ⟨none, 0⟩ 0 TokenResult.err GetResp.requestException =
      PyResult.exc "RequestException" ∧
    get_stream_info ⟨some "tok", 200⟩ 100 TokenResult.err
      GetResp.requestException = PyResult.ret none ∧
    get_stream_info ⟨some "tok", 200⟩ 100 TokenResult.err (GetResp.ok none) =
      PyResult.exc "KeyError" ∧
    get_stream_info ⟨some "tok", 200⟩ 100 TokenResult.err
      (GetResp.ok (some [])) = PyResult.exc "IndexError" ∧
    get_stream_info ⟨some "tok", 200⟩ 100 TokenResult.err
      (GetResp.ok (some ["T"])) = PyResult.ret (some "T") :=
  ⟨(get_stream_info_failure_modes ⟨none, 0⟩ 0 TokenResult.err
      GetResp.requestException).1 rfl,
   ((get_stream_info_failure_modes ⟨some "tok", 200⟩ 100 TokenResult.err
      GetResp.requestException).2 ⟨some "tok", 200⟩ rfl).1,
   ((get_stream_info_failure_modes ⟨some "tok", 200⟩ 100 TokenResult.err
      (GetResp.ok none)).2 ⟨some "tok", 200⟩ rfl).2.1 rfl,
   ((get_stream_info_failure_modes ⟨some "tok", 200⟩ 100 TokenResult.err
      (GetResp.ok (some []))).2 ⟨some "tok", 200⟩ rfl).2.2.1 rfl,
   ((get_stream_info_failure_modes ⟨some "tok", 200⟩ 100 TokenResult.err
      (GetResp.ok (some ["T"]))).2 ⟨some "tok", 200⟩
      rfl).2.2.2 "T" [] rfl⟩

/-- C3 counterexample: an event whose role indicator is literally
`"moderator"` (and whose display name is not `"MLH"`) does not pass the
filter, because the code compares `user-type` against `'mod'`; so "passes
iff role equals \x22moderator\x22 or name equals \x22MLH\x22" is false at
this event. -/
theorem is_authorized_user_moderator_cex :
    ¬ (is_authorized_user ⟨"moderator", "SomeoneElse", "http://a.com",
        "1700000000000"⟩ = true ↔
      (("moderator" : String) = "moderator" ∨
        ("SomeoneElse" : String) = "MLH")) := by
  decide

/-- C3 amended: an event passes the filter iff its `user-type` equals
`"mod"` or its display name equals `"MLH"`; an event with role `"viewer"`
and display name `"SomeoneElse"` produces no fetch, no token request, no
append and no log, for any message content. -/
theorem is_authorized_user_spec (ex : URLExtract) (api : TwitchAPI) (now : ℚ)
    (tokResp : TokenResult) (getResp : GetResp)
    (appendOut : Nat → AppendOutcome) (m : ChatMessage) :
    (is_authorized_user m = true ↔
      (m.user_type = "mod" ∨ m.display_name = "MLH")) ∧
    (m.user_type = "viewer" → m.display_name = "SomeoneElse" →
      process_message ex api now tokResp getResp appendOut m = noEffects) := by
  constructor
  · simp [is_authorized_user]
  · intro h1 h2
    have hfalse : is_authorized_user m = false := by
      simp [is_authorized_user, h1, h2]
    unfold process_message
    simp [hfalse]

/-- C3 amended witness: a moderator event passes; a viewer named
SomeoneElse produces no effects even with a URL in the message. -/
theorem is_authorized_user_spec_witness :
    is_authorized_user ⟨"mod", "SomeoneElse", "http://a.com", "0"⟩ = true ∧
    process_message sampleExtractor ⟨none, 0⟩ 0 TokenResult.err
      (GetResp.ok (some ["T"])) (fun _ => AppendOutcome.success)
      ⟨"viewer", "SomeoneElse", "see http://a.com", "1700000000000"⟩ =
      noEffects :=
  ⟨(is_authorized_user_spec sampleExtractor ⟨none, 0⟩ 0 TokenResult.err
      (GetResp.ok (some ["T"])) (fun _ => AppendOutcome.success)
      ⟨"mod", "SomeoneElse", "http://a.com", "0"⟩).1.mpr (Or.inl rfl),
   (is_authorized_user_spec sampleExtractor ⟨none, 0⟩ 0 TokenResult.err
      (GetResp.ok (some ["T"])) (fun _ => AppendOutcome.success)
      ⟨"viewer", "SomeoneElse", "see http://a.com", "1700000000000"⟩).2
      rfl rfl⟩

/-- C4: per `process_message` invocation the title fetch happens at most
once, and only when the event is authorized and its message contains a URL;
a URL-less message is dropped with no fetch and no append. -/
theorem title_fetch_at_most_once (ex : URLExtract) (api : TwitchAPI) (now : ℚ)
    (tokResp : TokenResult) (getResp : GetResp)
    (appendOut : Nat → AppendOutcome) (m : ChatMessage) :
    (process_message ex api now tokResp getResp appendOut m).fetches ≤ 1 ∧
    ((process_message ex api now tokResp getResp appendOut m).fetches = 1 →
      is_authorized_user m = true ∧ ex.has_urls m.message = true) ∧
    (ex.has_urls m.message = false →
      (process_message ex api now tokResp getResp appendOut m).fetches = 0 ∧
      (process_message ex api now tokResp getResp appendOut m).appends = []) := by
  unfold process_message
  by_cases hauth : is_authorized_user m
  · by_cases hurl : ex.has_urls m.message
    · simp only [hauth, hurl, Bool.not_true, Bool.false_eq_true, if_false]
      cases hres : get_stream_info api now tokResp getResp with
      | exc e => simp [noEffects, hauth, hurl]
      | ret o =>
        cases o with
        | none => simp [noEffects, hauth, hurl]
        | some title =>
          by_cases ht : title == ""
          · simp [noEffects, hauth, hurl, ht]
          · cases hts : parse_ts m.tmi_sent_ts <;>
              simp [noEffects, hauth, hurl, ht, hts]
    · have hurl' : ex.has_urls m.message = false := by
        simpa using hurl
      simp [noEffects, hurl']
  · have hauth' : is_authorized_user m = false := by
      simpa using hauth
    simp [noEffects, hauth']

/-- C4 witness: a URL-less authorized message yields no fetch; an
authorized URL-bearing message yields one fetch (implying both filters
passed). -/
theorem title_fetch_at_most_once_witness :
    (process_message sampleExtractor ⟨none, 0⟩ 0 TokenResult.err
      (GetResp.ok (some ["T"])) (fun _ => AppendOutcome.success)
      ⟨"mod", "X", "hello there", "1700000000000"⟩).fetches = 0 ∧
    (process_message sampleExtractor ⟨none, 0⟩ 0 TokenResult.err
      (GetResp.ok (some ["T"])) (fun _ => AppendOutcome.success)
      ⟨"mod", "X", "hello there", "1700000000000"⟩).appends = [] :=
  (title_fetch_at_most_once sampleExtractor ⟨none, 0⟩ 0 TokenResult.err
    (GetResp.ok (some ["T"])) (fun _ => AppendOutcome.success)
    ⟨"mod", "X", "hello there", "1700000000000"⟩).2.2 (by decide)

/-- When the event is authorized, has URLs, the fetch yields a non-empty
title and the timestamp parses, `process_message` runs the per-link loop on
the extracted URLs. -/
theorem process_message_run (ex : URLExtract) (api : TwitchAPI) (now : ℚ)
    (tokResp : TokenResult) (getResp : GetResp)
    (appendOut : Nat → AppendOutcome) (m : ChatMessage)
    (title : String) (ts : Int)
    (hauth : is_authorized_user m = true)
    (hhas : ex.has_urls m.message = true)
    (hfetch : get_stream_info api now tokResp getResp = PyResult.ret (some title))
    (htitle : title ≠ "")
    (hts : parse_ts m.tmi_sent_ts = some ts) :
    process_message ex api now tokResp getResp appendOut m =
      { fetches := 1,
        tokenRequests := (refresh_token_if_needed api now tokResp).2,
        appends := (run_links ⟨title, ts, ex.find_urls m.message⟩
          (ex.find_urls m.message) appendOut 0).1,
        logs := (run_links ⟨title, ts, ex.find_urls m.message⟩
          (ex.find_urls m.message) appendOut 0).2.1,
        outcome := (run_links ⟨title, ts, ex.find_urls m.message⟩
          (ex.find_urls m.message) appendOut 0).2.2 } := by
  have ht' : (title == "") = false := beq_eq_false_iff_ne.mpr htitle
  unfold process_message
  simp [hauth, hhas, hfetch, ht', hts]

/-- The per-link loop on a two-element URL list where neither call raises:
both rows are handed to the sheets append, in order. -/
theorem run_links_pair (info : StreamInfo) (u1 u2 : String)
    (appendOut : Nat → AppendOutcome)
    (h0 : appendOut 0 ≠ AppendOutcome.otherExc)
    (h1 : appendOut 1 ≠ AppendOutcome.otherExc) :
    (run_links info [u1, u2] appendOut 0).1 =
      [buildRow info u1, buildRow info u2] := by
  cases ha : appendOut 0 with
  | otherExc => exact absurd ha h0
  | success =>
    cases hb : appendOut 1 with
    | otherExc => exact absurd hb h1
    | success => simp [run_links, write_link, ha, hb]
    | httpError => simp [run_links, write_link, ha, hb]
  | httpError =>
    cases hb : appendOut 1 with
    | otherExc => exact absurd hb h1
    | success => simp [run_links, write_link, ha, hb]
    | httpError => simp [run_links, write_link, ha, hb]

/-- The per-link loop on a two-element URL list where the first append
fails with `HttpError` and the second succeeds. -/
theorem run_links_fail_then_success (info : StreamInfo) (u1 u2 : String)
    (appendOut : Nat → AppendOutcome)
    (h0 : appendOut 0 = AppendOutcome.httpError)
    (h1 : appendOut 1 = AppendOutcome.success) :
    run_links info [u1, u2] appendOut 0 =
      ([buildRow info u1, buildRow info u2],
       [("Failed to write " ++ u1 ++ " to database"),
        ("Successfully wrote " ++ u2 ++ " to database")],
       PyResult.ret ()) := by
  simp [run_links, write_link, h0, h1]

/-- Every appended row comes from the happy path: the timestamp parsed to
some `ts` and the row is `buildRow` of the fetched title, `ts` and one of
the extracted URLs. -/
theorem process_message_appends_shape (ex : URLExtract) (api : TwitchAPI)
    (now : ℚ) (tokResp : TokenResult) (getResp : GetResp)
    (appendOut : Nat → AppendOutcome) (m : ChatMessage) :
    ∀ row ∈ (process_message ex api now tokResp getResp appendOut m).appends,
      ∃ title ts l, parse_ts m.tmi_sent_ts = some ts ∧
        row = buildRow ⟨title, ts, ex.find_urls m.message⟩ l := by
  intro row hrow
  unfold process_message at hrow
  by_cases hauth : is_authorized_user m
  · by_cases hurl : ex.has_urls m.message
    · simp only [hauth, hurl, Bool.not_true, Bool.false_eq_true, if_false]
        at hrow
      cases hres : get_stream_info api now tokResp getResp with
      | exc e => rw [hres] at hrow; simp [noEffects] at hrow
      | ret o =>
        cases o with
        | none => rw [hres] at hrow; simp [noEffects] at hrow
        | some title =>
          rw [hres] at hrow
          by_cases ht : (title == "") = true
          · simp only [ht, if_true] at hrow
            simp at hrow
          · simp only [Bool.not_eq_true] at ht
            simp only [ht, Bool.false_eq_true, if_false] at hrow
            cases hts : parse_ts m.tmi_sent_ts with
            | none => rw [hts] at hrow; simp at hrow
            | some ts =>
              rw [hts] at hrow
              simp only [Effects.mk.injEq] at hrow
              obtain ⟨l, hl⟩ :=
                run_links_rows ⟨title, ts, ex.find_urls m.message⟩
                  (ex.find_urls m.message) appendOut 0 row hrow
              exact ⟨title, ts, l, rfl, hl⟩
    · have hurl' : ex.has_urls m.message = false := by simpa using hurl
      simp [noEffects, hurl'] at hrow
  · have hauth' : is_authorized_user m = false := by simpa using hauth
    simp [noEffects, hauth'] at hrow

/-- C5: on an authorized URL-bearing event whose send-time string is empty
or two characters long, `process_message` raises an uncaught `ValueError`
from `int(message['tmi-sent-ts'][:-3])` — it does not degrade to a logged
drop. -/
theorem malformed_ts_raises :
    (process_message sampleExtractor ⟨some "tok", 1000⟩ 100
      (TokenResult.ok "t" 3600) (GetResp.ok (some ["Title"]))
      (fun _ => AppendOutcome.success)
      ⟨"mod", "X", "see http://a.com", ""⟩).outcome =
      PyResult.exc "ValueError" ∧
    (process_message sampleExtractor ⟨some "tok", 1000⟩ 100
      (TokenResult.ok "t" 3600) (GetResp.ok (some ["Title"]))
      (fun _ => AppendOutcome.success)
      ⟨"mod", "X", "see http://a.com", "17"⟩).outcome =
      PyResult.exc "ValueError" := by
  exact ⟨rfl, rfl⟩

/-- C6: an authorized event whose message contains exactly two distinct
URLs produces exactly two append calls, in detection order, each row with
the same title, date and time and a different link. -/
theorem two_urls_two_appends (ex : URLExtract) (api : TwitchAPI) (now : ℚ)
    (tokResp : TokenResult) (getResp : GetResp)
    (appendOut : Nat → AppendOutcome) (m : ChatMessage)
    (u1 u2 title : String) (ts : Int)
    (hauth : is_authorized_user m = true)
    (hhas : ex.has_urls m.message = true)
    (hfind : ex.find_urls m.message = [u1, u2])
    (_hne : u1 ≠ u2)
    (hfetch : get_stream_info api now tokResp getResp = PyResult.ret (some title))
    (htitle : title ≠ "")
    (hts : parse_ts m.tmi_sent_ts = some ts)
    (h0 : appendOut 0 ≠ AppendOutcome.otherExc)
    (h1 : appendOut 1 ≠ AppendOutcome.otherExc) :
    (process_message ex api now tokResp getResp appendOut m).appends =
      [[title, strftime_date ts, strftime_time ts, u1],
       [title, strftime_date ts, strftime_time ts, u2]] := by
  rw [process_message_run ex api now tokResp getResp appendOut m title ts
    hauth hhas hfetch htitle hts]
  simp only [hfind]
  rw [run_links_pair ⟨title, ts, [u1, u2]⟩ u1 u2 appendOut h0 h1]
  simp [buildRow]

/-- C6 witness: a moderator message with two distinct URLs at timestamp
1700000000000 yields exactly the two expected rows. -/
theorem two_urls_two_appends_witness :
    (process_message sampleExtractor ⟨some "tok", 1000⟩ 100
      (TokenResult.ok "t" 3600) (GetResp.ok (some ["Title"]))
      (fun _ => AppendOutcome.success)
      ⟨"mod", "X", "see http://a.com and http://b.com",
        "1700000000000"⟩).appends =
      [["Title", strftime_date 1700000000, strftime_time 1700000000,
        "http://a.com"],
       ["Title", strftime_date 1700000000, strftime_time 1700000000,
        "http://b.com"]] :=
  two_urls_two_appends sampleExtractor ⟨some "tok", 1000⟩ 100
    (TokenResult.ok "t" 3600) (GetResp.ok (some ["Title"]))
    (fun _ => AppendOutcome.success)
    ⟨"mod", "X", "see http://a.com and http://b.com", "1700000000000"⟩
    "http://a.com" "http://b.com" "Title" 1700000000
    rfl rfl rfl (by decide) rfl (by decide) (by decide)
    (by decide) (by decide)

/-- C7: when of two append calls the first fails with `HttpError` and the
second succeeds, both are attempted, the per-link log records the failure
then the success, and processing finishes normally — no early abort. -/
theorem append_failure_isolation (ex : URLExtract) (api : TwitchAPI) (now : ℚ)
    (tokResp : TokenResult) (getResp : GetResp)
    (appendOut : Nat → AppendOutcome) (m : ChatMessage)
    (u1 u2 title : String) (ts : Int)
    (hauth : is_authorized_user m = true)
    (hhas : ex.has_urls m.message = true)
    (hfind : ex.find_urls m.message = [u1, u2])
    (hfetch : get_stream_info api now tokResp getResp = PyResult.ret (some title))
    (htitle : title ≠ "")
    (hts : parse_ts m.tmi_sent_ts = some ts)
    (h0 : appendOut 0 = AppendOutcome.httpError)
    (h1 : appendOut 1 = AppendOutcome.success) :
    (process_message ex api now tokResp getResp appendOut m).appends.length
      = 2 ∧
    (process_message ex api now tokResp getResp appendOut m).logs =
      [("Failed to write " ++ u1 ++ " to database"),
       ("Successfully wrote " ++ u2 ++ " to database")] ∧
    (process_message ex api now tokResp getResp appendOut m).outcome =
      PyResult.ret () := by
  rw [process_message_run ex api now tokResp getResp appendOut m title ts
    hauth hhas hfetch htitle hts]
  simp only [hfind]
  rw [run_links_fail_then_success ⟨title, ts, [u1, u2]⟩ u1 u2 appendOut h0 h1]
  simp

/-- C7 witness: concrete event where the first of two appends fails. -/
theorem append_failure_isolation_witness :
    (process_message sampleExtractor ⟨some "tok", 1000⟩ 100
      (TokenResult.ok "t" 3600) (GetResp.ok (some ["Title"]))
      (fun i => if i = 0 then AppendOutcome.httpError
        else AppendOutcome.success)
      ⟨"mod", "X", "see http://a.com and http://b.com",
        "1700000000000"⟩).appends.length = 2 ∧
    (process_message sampleExtractor ⟨some "tok", 1000⟩ 100
      (TokenResult.ok "t" 3600) (GetResp.ok (some ["Title"]))
      (fun i => if i = 0 then AppendOutcome.httpError
        else AppendOutcome.success)
      ⟨"mod", "X", "see http://a.com and http://b.com",
        "1700000000000"⟩).logs =
      [("Failed to write " ++ "http://a.com" ++ " to database"),
       ("Successfully wrote " ++ "http://b.com" ++ " to database")] ∧
    (process_message sampleExtractor ⟨some "tok", 1000⟩ 100
      (TokenResult.ok "t" 3600) (GetResp.ok (some ["Title"]))
      (fun i => if i = 0 then AppendOutcome.httpError
        else AppendOutcome.success)
      ⟨"mod", "X", "see http://a.com and http://b.com",
        "1700000000000"⟩).outcome = PyResult.ret () :=
  append_failure_isolation sampleExtractor ⟨some "tok", 1000⟩ 100
    (TokenResult.ok "t" 3600) (GetResp.ok (some ["Title"]))
    (fun i => if i = 0 then AppendOutcome.httpError
      else AppendOutcome.success)
    ⟨"mod", "X", "see http://a.com and http://b.com", "1700000000000"⟩
    "http://a.com" "http://b.com" "Title" 1700000000
    rfl rfl rfl rfl (by decide) (by decide) rfl rfl

/-- C8: for send-time string `"1700000000000"` every appended row is
`[title, "2023-11-14", "22:13:20", link]` — the exact UTC date and time and
the fixed field order title, date, time, link. -/
theorem row_shape_1700000000000 (ex : URLExtract) (api : TwitchAPI) (now : ℚ)
    (tokResp : TokenResult) (getResp : GetResp)
    (appendOut : Nat → AppendOutcome) (m : ChatMessage)
    (hts : m.tmi_sent_ts = "1700000000000") :
    ∀ row ∈ (process_message ex api now tokResp getResp appendOut m).appends,
      ∃ t l, row = [t, "2023-11-14", "22:13:20", l] := by
  intro row hrow
  obtain ⟨title, ts, l, hp, hl⟩ :=
    process_message_appends_shape ex api now tokResp getResp appendOut m
      row hrow
  rw [hts] at hp
  have hval : parse_ts "1700000000000" = some 1700000000 := by decide
  rw [hval] at hp
  injection hp with h
  subst h
  refine ⟨title, l, ?_⟩
  rw [hl]
  have hd : strftime_date 1700000000 = "2023-11-14" := by decide
  have htm : strftime_time 1700000000 = "22:13:20" := by decide
  simp [buildRow, hd, htm]

/-- C8 witness: applying the row-shape theorem to the single row appended
for a concrete moderator event at timestamp 1700000000000. -/
theorem row_shape_1700000000000_witness :
    ∃ t l, (["Title", "2023-11-14", "22:13:20", "http://a.com"] :
      List String) = [t, "2023-11-14", "22:13:20", l] :=
  row_shape_1700000000000 sampleExtractor ⟨some "tok", 1000⟩ 100
    (TokenResult.ok "t" 3600) (GetResp.ok (some ["Title"]))
    (fun _ => AppendOutcome.success)
    ⟨"mod", "X", "see http://a.com", "1700000000000"⟩ rfl
    ["Title", "2023-11-14", "22:13:20", "http://a.com"] (by decide)

/-- C9: the title fetch precedes the timestamp parse, so an authorized
URL-bearing event with a malformed send-time string still performs exactly
one metadata fetch (with whatever token refresh it entails) and writes
nothing. -/
theorem fetch_before_parse (ex : URLExtract) (api : TwitchAPI) (now : ℚ)
    (tokResp : TokenResult) (getResp : GetResp)
    (appendOut : Nat → AppendOutcome) (m : ChatMessage)
    (hauth : is_authorized_user m = true)
    (hhas : ex.has_urls m.message = true)
    (hts : parse_ts m.tmi_sent_ts = none) :
    (process_message ex api now tokResp getResp appendOut m).fetches = 1 ∧
    (process_message ex api now tokResp getResp appendOut m).tokenRequests =
      (refresh_token_if_needed api now tokResp).2 ∧
    (process_message ex api now tokResp getResp appendOut m).appends = [] := by
  unfold process_message
  simp only [hauth, hhas, Bool.not_true, Bool.false_eq_true, if_false]
  cases hres : get_stream_info api now tokResp getResp with
  | exc e => simp
  | ret o =>
    cases o with
    | none => simp
    | some title =>
      by_cases ht : (title == "") = true
      · simp [ht]
      · simp only [Bool.not_eq_true] at ht
        simp [ht, hts]

/-- C9 witness: a moderator URL message with an empty send-time string
still fetches once and appends nothing. -/
theorem fetch_before_parse_witness :
    (process_message sampleExtractor ⟨some "tok", 1000⟩ 100
      (TokenResult.ok "t" 3600) (GetResp.ok (some ["Title"]))
      (fun _ => AppendOutcome.success)
      ⟨"mod", "X", "see http://a.com", ""⟩).fetches = 1 ∧
    (process_message sampleExtractor ⟨some "tok", 1000⟩ 100
      (TokenResult.ok "t" 3600) (GetResp.ok (some ["Title"]))
      (fun _ => AppendOutcome.success)
      ⟨"mod", "X", "see http://a.com", ""⟩).tokenRequests =
      (refresh_token_if_needed ⟨some "tok", 1000⟩ 100
        (TokenResult.ok "t" 3600)).2 ∧
    (process_message sampleExtractor ⟨some "tok", 1000⟩ 100
      (TokenResult.ok "t" 3600) (GetResp.ok (some ["Title"]))
      (fun _ => AppendOutcome.success)
      ⟨"mod", "X", "see http://a.com", ""⟩).appends = [] :=
  fetch_before_parse sampleExtractor ⟨some "tok", 1000⟩ 100
    (TokenResult.ok "t" 3600) (GetResp.ok (some ["Title"]))
    (fun _ => AppendOutcome.success)
    ⟨"mod", "X", "see http://a.com", ""⟩ rfl rfl rfl

end Bot
